import Mathlib

set_option maxRecDepth 8000

/-!
Verification development for the ExchangeCompass backend.

The definitions below are a shallow embedding of the two backend modules:

* `src/backend/ai_processor.py` — the batch enrichment pipeline
  (`process_data_pipeline`) and the batch writer (`insert_records`);
* `src/backend/app.py` — the Flask read/write API (`submit_review`,
  `update_review_status`, `get_university_details`, `get_unis_live`,
  `get_raw_reviews_text`, `get_ai_summary`) and the in-process
  `university_details_cache`.

Database state is modelled as a list of rows plus a fresh-id counter; the
single PostgreSQL transaction of a batch run is modelled by performing all
per-record writes on a pending state and either committing it or, on the
first raised exception, discarding it (the `conn.rollback()` of the source).
External effects (the Gemini call plus `json.loads`) are passed in as an
oracle returning the parsed response dictionary, `none` standing for any
exception inside the `try` block.
-/

/-- A row of the combined raw-data frame that `process_data_pipeline`
iterates over (CSV rows after the column renaming, together with the
dictionaries produced by `parse_html_reviews`).  `none` models a missing
value (pandas `NaN`); `some ""` models a present but empty string, which
`pd.isna` does not flag. -/
structure RawRecord where
  uni_name : String
  city : Option String
  source_type : Option String
  raw_review_text : Option String
deriving Repr, DecidableEq

/-- The dictionary obtained from `json.loads(response.text)` inside
`analyze_review_with_gemini`: any key may be absent.  The source returns this
dictionary as-is; none of its fields are inspected or validated locally
(ai_processor.py lines 79-93). -/
structure ScorerResponse where
  overall_sentiment : Option String := none
  academics_score : Option Int := none
  cost_score : Option Int := none
  social_score : Option Int := none
  accommodation_score : Option Int := none
  theme_summary : Option String := none
deriving Repr, DecidableEq

/-- The record dictionary assembled by `process_data_pipeline` (line 167): the
base fields merged with whatever keys the scorer response carried, plus the
mock majors.  A `none` in a merged field means the key is absent from the
dictionary, so a later `record[key]` access raises `KeyError`. -/
structure ProcessedRecord where
  uni_name : String
  city : Option String
  source_type : String
  raw_review_text : String
  overall_sentiment : Option String := none
  academics_score : Option Int := none
  cost_score : Option Int := none
  social_score : Option Int := none
  accommodation_score : Option Int := none
  theme_summary : Option String := none
  major : List String := []
deriving Repr, DecidableEq

/-- A row of the `exchange_reviews` table, with the columns the backend reads
and writes (`id` is the storage-assigned primary key, `created_at` the
insertion timestamp). -/
structure Row where
  id : Nat
  uni_name : String
  city : Option String
  source_type : String
  raw_language : String
  academics_score : Int
  cost_score : Int
  social_score : Int
  accommodation_score : Int
  overall_sentiment : Option String
  theme_summary : Option String
  raw_review_text : String
  reviewer_type : String
  status : String
  major : Option (List String)
  created_at : Nat
deriving Repr, DecidableEq

/-- The persistent store: the `exchange_reviews` table plus the sequence
counter backing the `id` primary key. -/
structure DB where
  rows : List Row
  nextId : Nat
deriving Repr, DecidableEq

/-- True when the character lies in the Arabic Unicode block, exactly the
test of ai_processor.py line 207. -/
def arabicChar (c : Char) : Bool :=
  decide (0x600 ≤ c.toNat ∧ c.toNat ≤ 0x6FF)

/-- The generator expression of ai_processor.py line 207: does any character
of the text lie in the Arabic Unicode block. -/
def containsArabic (s : String) : Bool :=
  s.data.any arabicChar

/-- The `raw_language_guess` expression of ai_processor.py line 207. -/
def raw_language_guess (s : String) : String :=
  if containsArabic s then "ar" else "en"

/-- Helper for Python substring containment: the first list starts the
second. -/
def charsStartWith : List Char → List Char → Bool
  | [], _ => true
  | _ :: _, [] => false
  | a :: as, b :: bs => a == b && charsStartWith as bs

/-- Helper for Python substring containment: the first list occurs
contiguously inside the second. -/
def charsContain (sub : List Char) : List Char → Bool
  | [] => charsStartWith sub []
  | b :: bs => charsStartWith sub (b :: bs) || charsContain sub bs

/-- Python `sub in hay` substring containment on strings. -/
def strContains (hay sub : String) : Bool :=
  charsContain sub.data hay.data

/-- `assign_mock_majors` of ai_processor.py lines 95-109. -/
def assign_mock_majors (uni_name : String) : List String :=
  if strContains uni_name "University of Technology" then
    ["Computer Science", "Electrical Engineering"]
  else if strContains uni_name "University of Arts" then
    ["Graphic Design", "Animation"]
  else if strContains uni_name "University of Medicine" then
    ["Medicine", "Pharmacy"]
  else if strContains uni_name "University of Engineering" then
    ["Mechanical Engineering", "Civil Engineering"]
  else
    ["General Studies"]

/-- The record dictionary built at ai_processor.py lines 167-174: base fields,
the unpacked scorer response, and the mock majors
(`row.get` with default `csv_survey` for the source kind). -/
def assembleRecord (row : RawRecord) (text : String) (g : ScorerResponse) : ProcessedRecord :=
  { uni_name := row.uni_name
    city := row.city
    source_type := row.source_type.getD "csv_survey"
    raw_review_text := text
    overall_sentiment := g.overall_sentiment
    academics_score := g.academics_score
    cost_score := g.cost_score
    social_score := g.social_score
    accommodation_score := g.accommodation_score
    theme_summary := g.theme_summary
    major := assign_mock_majors row.uni_name }

/-- The per-row loop of `process_data_pipeline` (ai_processor.py lines
156-183) over the combined raw-data frame.  The `scorer` oracle stands for
`analyze_review_with_gemini` (its arguments are the review text and the
university name; `none` is a failed call or unparsable response).  The
second component counts how many times the scorer is invoked: rows whose
`raw_review_text` is `NaN` are skipped by the `pd.isna` test before the
call, every other row reaches the scorer exactly once. -/
def process_data_pipeline (scorer : String → String → Option ScorerResponse)
    (rows : List RawRecord) : List ProcessedRecord × Nat :=
  rows.foldl
    (fun acc row =>
      match row.raw_review_text with
      | none => acc
      | some text =>
        match scorer text row.uni_name with
        | some g => (acc.1 ++ [assembleRecord row text g], acc.2 + 1)
        | none => (acc.1, acc.2 + 1))
    ([], 0)

/-- The natural-key lookup predicate of the `SELECT id ... WHERE uni_name =
%s AND raw_review_text = %s AND reviewer_type = %s` query (ai_processor.py
lines 230-233). -/
def matchKey (uni text rtype : String) (r : Row) : Bool :=
  r.uni_name == uni && r.raw_review_text == text && r.reviewer_type == rtype

/-- Number of stored rows sharing a natural key. -/
def countKey (db : DB) (uni text rtype : String) : Nat :=
  db.rows.countP (matchKey uni text rtype)

/-- The `UPDATE exchange_reviews SET ...` statement of ai_processor.py lines
238-252, applied to one row: it assigns city, source_type, raw_language, the
four scores, theme_summary, status and major; every other column (in
particular `id`, `uni_name`, `raw_review_text`, `reviewer_type`,
`overall_sentiment` and `created_at`) is left untouched. -/
def updateRow (x : Row) (rec : ProcessedRecord) (a c s ac : Int) (ts lang : String) : Row :=
  { x with
    city := rec.city
    source_type := rec.source_type
    raw_language := lang
    academics_score := a
    cost_score := c
    social_score := s
    accommodation_score := ac
    theme_summary := some ts
    status := "approved"
    major := some rec.major }

/-- The `INSERT INTO exchange_reviews (...) VALUES (...)` of ai_processor.py
lines 269-274: the column list carries no `overall_sentiment`, so that column
stays NULL; `reviewer_type` and `status` are the constants fixed at lines
210-211. -/
def insertRowFor (db : DB) (now : Nat) (rec : ProcessedRecord)
    (a c s ac : Int) (ts lang : String) : Row :=
  { id := db.nextId
    uni_name := rec.uni_name
    city := rec.city
    source_type := rec.source_type
    raw_language := lang
    academics_score := a
    cost_score := c
    social_score := s
    accommodation_score := ac
    overall_sentiment := none
    theme_summary := some ts
    raw_review_text := rec.raw_review_text
    reviewer_type := "ai_processed"
    status := "approved"
    major := some rec.major
    created_at := now }

/-- One iteration of the `for record in records` loop of `insert_records`
(ai_processor.py lines 205-275).  The `values` tuple is built first, so a
score or summary key missing from the record raises `KeyError` before any
SQL runs; then the natural-key lookup decides update versus insert.  The
boolean reports which branch ran (`true` = insert). -/
def processOne (db : DB) (now : Nat) (rec : ProcessedRecord) :
    Except String (DB × Bool) :=
  match rec.academics_score, rec.cost_score, rec.social_score,
      rec.accommodation_score, rec.theme_summary with
  | some a, some c, some s, some ac, some ts =>
    let lang := raw_language_guess rec.raw_review_text
    match db.rows.find? (matchKey rec.uni_name rec.raw_review_text "ai_processed") with
    | some r =>
      .ok ({ db with
             rows := db.rows.map (fun x =>
               if x.id == r.id then updateRow x rec a c s ac ts lang else x) },
           false)
    | none =>
      .ok ({ rows := db.rows ++ [insertRowFor db now rec a c s ac ts lang],
             nextId := db.nextId + 1 },
           true)
  | _, _, _, _, _ => .error "KeyError"

/-- The whole `for` loop of `insert_records`, threading the pending
transaction state and the `insert_count`/`update_count` tallies. -/
def insertLoop (now : Nat) (db : DB) (ic uc : Nat) :
    List ProcessedRecord → Except String (DB × Nat × Nat)
  | [] => .ok (db, ic, uc)
  | rec :: rest =>
    match processOne db now rec with
    | .error e => .error e
    | .ok (db2, true) => insertLoop now db2 (ic + 1) uc rest
    | .ok (db2, false) => insertLoop now db2 ic (uc + 1) rest

/-- `insert_records` of ai_processor.py lines 186-286: all per-record writes
happen inside one transaction; reaching the end of the loop commits the
pending state and reports the two counts, while the first exception reaches
the `except` clause, which rolls the entire transaction back (the store is
left exactly as before the call) and reports the error instead of counts. -/
def insert_records (now : Nat) (db : DB) (records : List ProcessedRecord) :
    DB × Except String (Nat × Nat) :=
  match insertLoop now db 0 0 records with
  | .ok (db2, ic, uc) => (db2, .ok (ic, uc))
  | .error e => (db, .error e)

/-- True when the record dictionary carries all five keys that the `values`
tuple of `insert_records` reads from the scorer response. -/
def recComplete (rec : ProcessedRecord) : Bool :=
  rec.academics_score.isSome && rec.cost_score.isSome && rec.social_score.isSome
    && rec.accommodation_score.isSome && rec.theme_summary.isSome

/-- Well-formedness of the store: primary keys are pairwise distinct and the
sequence counter is strictly above every existing key. -/
def WFdb (db : DB) : Prop :=
  (db.rows.map (·.id)).Nodup ∧ ∀ r ∈ db.rows, r.id < db.nextId

/-- The JSON body of a `POST /api/submit_review` request (app.py lines
154-163): a dictionary in which any key may be absent. -/
structure SubmissionData where
  uni_name : Option String := none
  city : Option String := none
  raw_review_text : Option String := none
  raw_language : Option String := none
  academics_score : Option Int := none
  cost_score : Option Int := none
  social_score : Option Int := none
  accommodation_score : Option Int := none
  theme_summary : Option String := none
deriving Repr, DecidableEq

/-- The `required_fields` membership check of app.py lines 161-162. -/
def requiredPresent (d : SubmissionData) : Bool :=
  d.uni_name.isSome && d.raw_review_text.isSome && d.academics_score.isSome
    && d.cost_score.isSome && d.social_score.isSome && d.accommodation_score.isSome

/-- Outcome of the submission endpoint. -/
inductive SubmitResp where
  | badRequest
  | created
deriving Repr, DecidableEq

/-- The row written by the `INSERT` of app.py lines 171-198.  The `values`
tuple fixes `source_type`, `overall_sentiment`, `reviewer_type` and `status`
as constants, and takes `city`, `raw_language` and `theme_summary` through
`review_data.get` with the literal defaults of lines 184-193; `major` is not
in the column list, so it stays NULL.  The `getD` fallbacks on the required
fields are unreachable once `requiredPresent` holds. -/
def submitNewRow (db : DB) (d : SubmissionData) (now : Nat) : Row :=
  { id := db.nextId
    uni_name := d.uni_name.getD ""
    city := some (d.city.getD "Unknown")
    source_type := "user_submitted"
    raw_language := d.raw_language.getD "en"
    academics_score := d.academics_score.getD 0
    cost_score := d.cost_score.getD 0
    social_score := d.social_score.getD 0
    accommodation_score := d.accommodation_score.getD 0
    overall_sentiment := some "Neutral"
    theme_summary := some (d.theme_summary.getD "User-provided review.")
    raw_review_text := d.raw_review_text.getD ""
    reviewer_type := "user_submitted"
    status := "pending"
    major := none
    created_at := now }

/-- `submit_review` of app.py lines 154-208: reject the request when a
required field is missing, otherwise insert the single new row and commit. -/
def submit_review (db : DB) (d : SubmissionData) (now : Nat) : DB × SubmitResp :=
  if requiredPresent d then
    ({ rows := db.rows ++ [submitNewRow db d now], nextId := db.nextId + 1 }, .created)
  else
    (db, .badRequest)

/-- Two-decimal rounding standing for the SQL `ROUND(x::numeric, 2)` (the
stored scores are nonnegative, where floor of the shifted value agrees with
SQL rounding). -/
def round2 (q : Rat) : Rat :=
  ((q * 100 + 1 / 2).floor : Int) / 100

/-- One output row of the aggregation of app.py lines 275-291: the group of
`approved` rows sharing a `(uni_name, city)` pair, its size and the four
column means, plus the mean of the per-row four-score average. -/
structure UniAgg where
  uni_name : String
  city : Option String
  review_count : Nat
  avg_academics : Rat
  avg_cost : Rat
  avg_social : Rat
  avg_accommodation : Rat
  overall_score : Rat
deriving Repr, DecidableEq

/-- The `WHERE status = 'approved'` row set that both aggregation queries of
app.py range over. -/
def approvedRows (db : DB) : List Row :=
  db.rows.filter (fun r => r.status == "approved")

/-- The aggregate record of one `GROUP BY uni_name, city` group, computed
from the given row set. -/
def aggFor (rows : List Row) (key : String × Option String) : UniAgg :=
  let g := rows.filter (fun r => r.uni_name == key.1 && r.city == key.2)
  let n : Rat := g.length
  { uni_name := key.1
    city := key.2
    review_count := g.length
    avg_academics := round2 ((g.map (fun r => (r.academics_score : Rat))).sum / n)
    avg_cost := round2 ((g.map (fun r => (r.cost_score : Rat))).sum / n)
    avg_social := round2 ((g.map (fun r => (r.social_score : Rat))).sum / n)
    avg_accommodation := round2 ((g.map (fun r => (r.accommodation_score : Rat))).sum / n)
    overall_score :=
      (g.map (fun r =>
        ((r.academics_score + r.cost_score + r.social_score + r.accommodation_score : Int) : Rat)
          / 4)).sum / n }

/-- `get_unis_live` of app.py lines 266-306: group the `approved` rows by
`(uni_name, city)` and emit one aggregate record per group. -/
def get_unis_live (db : DB) : List UniAgg :=
  (((approvedRows db).map (fun r => (r.uni_name, r.city))).dedup).map
    (aggFor (approvedRows db))

/-- The `SELECT theme_summary ... LIMIT 1` subquery used both by
`get_ai_summary` (app.py lines 74-77) and by the aggregate query of
`get_university_details` (line 235): the summary of the first stored row for
the university whose summary is non-NULL, reviewer_type is `ai_processed`
and status is `approved`. -/
def cachedSummaryLookup (db : DB) (uni : String) : Option String :=
  (db.rows.find? (fun r =>
    r.uni_name == uni && r.theme_summary.isSome && r.reviewer_type == "ai_processed"
      && r.status == "approved")).bind (·.theme_summary)

/-- The result row of the aggregate `SELECT` of `get_university_details`
(app.py lines 225-244). -/
structure UniDetails where
  uni_name : String
  city : Option String
  avg_academics : Rat
  avg_cost : Rat
  avg_social : Rat
  avg_accommodation : Rat
  overall_score : Rat
  theme_summary : Option String
deriving Repr, DecidableEq

/-- The aggregate query of `get_university_details`: over the `approved` rows
of the university, grouped by city, `fetchone` returning the group of the
first such row; `none` when no approved row exists (the 404 branch). -/
def computeUniDetails (db : DB) (uni : String) : Option UniDetails :=
  match (approvedRows db).filter (fun r => r.uni_name == uni) with
  | [] => none
  | r0 :: rest =>
    let g := (r0 :: rest).filter (fun r => r.city == r0.city)
    let n : Rat := g.length
    some
      { uni_name := uni
        city := r0.city
        avg_academics := round2 ((g.map (fun r => (r.academics_score : Rat))).sum / n)
        avg_cost := round2 ((g.map (fun r => (r.cost_score : Rat))).sum / n)
        avg_social := round2 ((g.map (fun r => (r.social_score : Rat))).sum / n)
        avg_accommodation :=
          round2 ((g.map (fun r => (r.accommodation_score : Rat))).sum / n)
        overall_score :=
          round2 ((g.map (fun r =>
            ((r.academics_score + r.cost_score + r.social_score
              + r.accommodation_score : Int) : Rat) / 4)).sum / n)
        theme_summary := cachedSummaryLookup db uni }

/-- The process state of the Flask application: the store it connects to and
the module-level `university_details_cache` dictionary (app.py line 18),
modelled as an association list with distinct keys. -/
structure AppState where
  db : DB
  cache : List (String × UniDetails)
deriving Repr, DecidableEq

/-- Python `cache.get`-style lookup on the modelled dictionary. -/
def lookupCache (c : List (String × UniDetails)) (u : String) : Option UniDetails :=
  (c.find? (fun p => p.1 == u)).map (·.2)

/-- `get_university_details` of app.py lines 210-264: answer from the cache
when the key is present, otherwise run the aggregate query and, when a row
comes back, store it in the cache before returning it. -/
def get_university_details (s : AppState) (uni : String) :
    AppState × Option UniDetails :=
  match lookupCache s.cache uni with
  | some v => (s, some v)
  | none =>
    match computeUniDetails s.db uni with
    | some v =>
      ({ s with cache := (uni, v) :: s.cache.filter (fun p => p.1 != uni) }, some v)
    | none => (s, none)

/-- Outcome of the admin status endpoint. -/
inductive StatusResp where
  | unauthorized
  | badStatus
  | notFound
  | ok
deriving Repr, DecidableEq

/-- `update_review_status` of app.py lines 337-383: after the key and status
checks, set the row status by id and commit, report 404 when no row matched,
otherwise look the university name up by id and delete its cache entry when
present. -/
def update_review_status (s : AppState) (review_id : Nat) (new_status : String)
    (authorized : Bool) : AppState × StatusResp :=
  if !authorized then (s, .unauthorized)
  else if !(new_status == "approved" || new_status == "rejected") then (s, .badStatus)
  else
    let rows2 := s.db.rows.map (fun r =>
      if r.id == review_id then { r with status := new_status } else r)
    let db2 : DB := { s.db with rows := rows2 }
    if s.db.rows.countP (fun r => r.id == review_id) == 0 then
      ({ s with db := db2 }, .notFound)
    else
      match rows2.find? (fun r => r.id == review_id) with
      | some r2 =>
        ({ db := db2, cache := s.cache.filter (fun p => p.1 != r2.uni_name) }, .ok)
      | none => ({ s with db := db2 }, .ok)

/-- An enrichment batch run against the application state: `insert_records`
connects to the database on its own and never references the Flask module's
`university_details_cache`, so the cache component passes through
unchanged. -/
def run_batch (s : AppState) (now : Nat) (records : List ProcessedRecord) :
    AppState × Except String (Nat × Nat) :=
  let out := insert_records now s.db records
  ({ s with db := out.1 }, out.2)

/-- `get_raw_reviews_text` of app.py lines 43-61: the texts of every stored
row of the university, with no filter on `status` or `reviewer_type`. -/
def get_raw_reviews_text (db : DB) (uni : String) : List String :=
  (db.rows.filter (fun r => r.uni_name == uni)).map (·.raw_review_text)

/-- Observable outcome of `GET /api/summary/<uni_name>`: a stored summary
served directly, or the context string handed to the LLM for synthesis, or
the no-reviews message. -/
inductive SummaryOutcome where
  | storedHit (s : String)
  | generated (context : String)
  | noReviews
deriving Repr, DecidableEq

/-- The cache-miss path of `get_ai_summary` (app.py lines 84-97): join every
raw review text of the university with the `\n---\n` separator and send that
context to the scorer.  The write-back of the generated summary into a
stored row is not modelled: it happens after the context is built and does
not affect the returned summary. -/
def summaryGenPath (db : DB) (uni : String) : SummaryOutcome :=
  let texts := get_raw_reviews_text db uni
  if texts.isEmpty then .noReviews
  else .generated (String.intercalate "\x0A---\x0A" texts)

/-- `get_ai_summary` of app.py lines 63-129: serve the first stored approved
`ai_processed` summary when it is non-empty (the Python truthiness test of
line 80), otherwise build the synthesis context from all raw texts. -/
def get_ai_summary (db : DB) (uni : String) : SummaryOutcome :=
  match cachedSummaryLookup db uni with
  | some s => if s != "" then .storedHit s else summaryGenPath db uni
  | none => summaryGenPath db uni

/-- Pointwise-equal predicates count the same. -/
theorem countP_congr_local (p q : α → Bool) :
    ∀ l : List α, (∀ a ∈ l, p a = q a) → l.countP p = l.countP q
  | [], _ => rfl
  | a :: as, h => by
    have ha := h a (by simp)
    have ih := countP_congr_local p q as (fun x hx => h x (by simp [hx]))
    simp [List.countP_cons, ha, ih]

/-- Filtering by a predicate implied by the search predicate does not change
the result of `find?`. -/
theorem find?_filter_of_imp (pred keep : α → Bool)
    (himp : ∀ x, pred x = true → keep x = true) :
    ∀ l : List α, (l.filter keep).find? pred = l.find? pred
  | [] => rfl
  | a :: as => by
    cases hk : keep a with
    | true =>
      cases hp : pred a with
      | true => simp [List.filter_cons, hk, List.find?_cons, hp]
      | false => simp [List.filter_cons, hk, List.find?_cons, hp,
          find?_filter_of_imp pred keep himp as]
    | false =>
      have hp : pred a = false := by
        cases hp : pred a with
        | true => exact absurd (himp a hp) (by simp [hk])
        | false => rfl
      simp [List.filter_cons, hk, List.find?_cons, hp,
        find?_filter_of_imp pred keep himp as]

/-- Unfolding of the pipeline fold: the scorer-call counter grows by exactly
the number of rows whose review text is present (not `NaN`), whatever the
accumulator. -/
theorem pipelineCalls_aux (scorer : String → String → Option ScorerResponse) :
    ∀ (rows : List RawRecord) (acc : List ProcessedRecord × Nat),
      (rows.foldl
        (fun acc row =>
          match row.raw_review_text with
          | none => acc
          | some text =>
            match scorer text row.uni_name with
            | some g => (acc.1 ++ [assembleRecord row text g], acc.2 + 1)
            | none => (acc.1, acc.2 + 1)) acc).2
        = acc.2 + rows.countP (fun r => r.raw_review_text.isSome)
  | [], acc => by simp
  | row :: rest, acc => by
    cases h : row.raw_review_text with
    | none =>
      simp only [List.foldl_cons, h, List.countP_cons]
      rw [pipelineCalls_aux scorer rest acc]
      simp [h]
    | some text =>
      cases hs : scorer text row.uni_name <;>
        · simp only [List.foldl_cons, h, hs, List.countP_cons]
          rw [pipelineCalls_aux scorer rest _]
          simp [h]
          omega

/-- C1 (amended): the pipeline excludes a raw review before the scorer only
when its `free_text` is missing (`NaN`); every row whose text is present —
including a present-but-empty string — reaches the scorer exactly once, and
no deduplication gate runs before scoring, so across a batch run the number
of scorer calls equals the number of raw reviews whose `free_text` is
present. -/
theorem c1_amended (scorer : String → String → Option ScorerResponse)
    (rows : List RawRecord) :
    (process_data_pipeline scorer rows).2
      = rows.countP (fun r => r.raw_review_text.isSome) := by
  unfold process_data_pipeline
  rw [pipelineCalls_aux scorer rows ([], 0)]
  simp

/-- A raw review whose `free_text` is present but empty. -/
def emptyTextRow : RawRecord :=
  { uni_name := "Alpha U", city := none, source_type := none, raw_review_text := some "" }

/-- A scorer oracle whose every call fails. -/
def noneScorer : String → String → Option ScorerResponse := fun _ _ => none

/-- The non-empty-free-text count the claim measures scorer calls against. -/
def hasNonEmptyText (r : RawRecord) : Bool :=
  match r.raw_review_text with
  | some t => !(t == "")
  | none => false

/-- C1 counterexample: on a batch holding one raw review whose `free_text`
is the empty string, the pipeline performs one scorer call although the
batch holds zero reviews with non-empty `free_text`; since the claimed
equality subtracts a (nonnegative) number of deduplicated reviews from that
zero count, it cannot yield the observed one call, so the claim fails at
this input. -/
theorem c1_counterexample :
    (process_data_pipeline noneScorer [emptyTextRow]).2 = 1 ∧
    [emptyTextRow].countP hasNonEmptyText = 0 := by
  exact ⟨rfl, rfl⟩

/-- C9: the per-university AI-summary endpoint reads its synthesis context
from `get_raw_reviews_text`, whose query filters on the university name
only: the text of every stored row of that university is in the context
list, with no hypothesis on its `moderation_status` or `reviewer_type`, and
whenever the endpoint reaches the LLM-synthesis branch the context it sends
is exactly the join of that unfiltered list. -/
theorem c9_summary_context (db : DB) (uni : String) (r : Row)
    (hr : r ∈ db.rows) (hn : r.uni_name = uni) :
    r.raw_review_text ∈ get_raw_reviews_text db uni ∧
    ∀ ctx, get_ai_summary db uni = .generated ctx →
      ctx = String.intercalate "\x0A---\x0A" (get_raw_reviews_text db uni) := by
  constructor
  · unfold get_raw_reviews_text
    exact List.mem_map_of_mem _ (by simp [List.mem_filter, hr, hn])
  · intro ctx h
    cases hcs : cachedSummaryLookup db uni with
    | none =>
      simp only [get_ai_summary, hcs, summaryGenPath] at h
      by_cases hemp : (get_raw_reviews_text db uni).isEmpty <;> simp [hemp] at h
      exact h.symm
    | some s =>
      simp only [get_ai_summary, hcs] at h
      by_cases hne : s = "" <;> simp only [hne, summaryGenPath] at h
      · by_cases hemp : (get_raw_reviews_text db uni).isEmpty <;> simp [hemp] at h
        exact h.symm
      · have : (s != "") = true := by simp [hne]
        rw [this] at h
        simp at h

/-- A stored row whose review awaits moderation rejection: not approved, not
AI-processed. -/
def row9 : Row :=
  { id := 1, uni_name := "Alpha U", city := some "Amman", source_type := "user_submitted"
    raw_language := "en", academics_score := 1, cost_score := 1, social_score := 1
    accommodation_score := 1, overall_sentiment := some "Neutral"
    theme_summary := some "User-provided review.", raw_review_text := "terrible in every way"
    reviewer_type := "user_submitted", status := "rejected", major := none, created_at := 0 }

/-- Store holding only the rejected row above. -/
def db9 : DB := ⟨[row9], 2⟩

/-- Witness for C9: the text of a concrete rejected, user-submitted row is
part of the summary-synthesis context list of its university. -/
theorem c9_witness :
    row9.raw_review_text ∈ get_raw_reviews_text db9 "Alpha U" ∧
    ∀ ctx, get_ai_summary db9 "Alpha U" = .generated ctx →
      ctx = String.intercalate "\x0A---\x0A" (get_raw_reviews_text db9 "Alpha U") :=
  c9_summary_context db9 "Alpha U" row9 (by simp [db9]) (by rfl)

/-- C10: a user submission passing the required-fields check is stored as one
new row whose AI-derived columns take the fixed placeholder values of
app.py lines 182-196 — `raw_language` is the caller-supplied value or `en`
(no script-based detection runs on the text), `overall_sentiment` is always
`Neutral`, and `theme_summary` is the caller-supplied value or the literal
`User-provided review.` — and replacing the submitted text by any other
string leaves all three placeholder columns unchanged. -/
theorem c10_placeholders (db : DB) (d : SubmissionData) (now : Nat)
    (hreq : requiredPresent d = true) :
    submit_review db d now =
      ({ rows := db.rows ++ [submitNewRow db d now], nextId := db.nextId + 1 }, .created) ∧
    (submitNewRow db d now).raw_language = d.raw_language.getD "en" ∧
    (submitNewRow db d now).overall_sentiment = some "Neutral" ∧
    (submitNewRow db d now).theme_summary
      = some (d.theme_summary.getD "User-provided review.") ∧
    ∀ t : String,
      ((submitNewRow db { d with raw_review_text := some t } now).raw_language,
       (submitNewRow db { d with raw_review_text := some t } now).overall_sentiment,
       (submitNewRow db { d with raw_review_text := some t } now).theme_summary)
        = ((submitNewRow db d now).raw_language,
           (submitNewRow db d now).overall_sentiment,
           (submitNewRow db d now).theme_summary) := by
  refine ⟨?_, rfl, rfl, rfl, fun t => rfl⟩
  simp [submit_review, hreq]

/-- A submission carrying Arabic-script text and no `raw_language` key. -/
def subm10 : SubmissionData :=
  { uni_name := some "Alpha U", city := none, raw_review_text := some "جامعة ممتازة"
    raw_language := none, academics_score := some 4, cost_score := some 4
    social_score := some 4, accommodation_score := some 4, theme_summary := none }

/-- Witness for C10: a concrete Arabic-script submission is accepted and its
stored row still carries `raw_language = en`, `overall_sentiment = Neutral`
and the placeholder summary. -/
theorem c10_witness :
    submit_review ⟨[], 1⟩ subm10 5 =
      ({ rows := [] ++ [submitNewRow ⟨[], 1⟩ subm10 5], nextId := 1 + 1 }, .created) ∧
    (submitNewRow ⟨[], 1⟩ subm10 5).raw_language = subm10.raw_language.getD "en" ∧
    (submitNewRow ⟨[], 1⟩ subm10 5).overall_sentiment = some "Neutral" ∧
    (submitNewRow ⟨[], 1⟩ subm10 5).theme_summary
      = some (subm10.theme_summary.getD "User-provided review.") ∧
    ∀ t : String,
      ((submitNewRow ⟨[], 1⟩ { subm10 with raw_review_text := some t } 5).raw_language,
       (submitNewRow ⟨[], 1⟩ { subm10 with raw_review_text := some t } 5).overall_sentiment,
       (submitNewRow ⟨[], 1⟩ { subm10 with raw_review_text := some t } 5).theme_summary)
        = ((submitNewRow ⟨[], 1⟩ subm10 5).raw_language,
           (submitNewRow ⟨[], 1⟩ subm10 5).overall_sentiment,
           (submitNewRow ⟨[], 1⟩ subm10 5).theme_summary) :=
  c10_placeholders ⟨[], 1⟩ subm10 5 (by rfl)

/-- The update branch of the `insert_records` loop: when the record carries
all five scorer keys and the natural-key lookup finds a row, the iteration
runs the `UPDATE` on the rows sharing that id and counts an update. -/
theorem processOne_update (db : DB) (now : Nat) (rec : ProcessedRecord) (r : Row)
    (a c s ac : Int) (ts : String)
    (ha : rec.academics_score = some a) (hc : rec.cost_score = some c)
    (hso : rec.social_score = some s) (hacc : rec.accommodation_score = some ac)
    (hts : rec.theme_summary = some ts)
    (hf : db.rows.find? (matchKey rec.uni_name rec.raw_review_text "ai_processed") = some r) :
    processOne db now rec = .ok
      ({ db with rows := db.rows.map (fun x =>
          if x.id == r.id then
            updateRow x rec a c s ac ts (raw_language_guess rec.raw_review_text)
          else x) }, false) := by
  simp [processOne, ha, hc, hso, hacc, hts, hf]

/-- The insert branch of the `insert_records` loop: when the record carries
all five scorer keys and the natural-key lookup finds nothing, the iteration
runs the `INSERT` and counts an insert. -/
theorem processOne_insert (db : DB) (now : Nat) (rec : ProcessedRecord)
    (a c s ac : Int) (ts : String)
    (ha : rec.academics_score = some a) (hc : rec.cost_score = some c)
    (hso : rec.social_score = some s) (hacc : rec.accommodation_score = some ac)
    (hts : rec.theme_summary = some ts)
    (hf : db.rows.find? (matchKey rec.uni_name rec.raw_review_text "ai_processed") = none) :
    processOne db now rec = .ok
      ({ rows := db.rows ++
          [insertRowFor db now rec a c s ac ts (raw_language_guess rec.raw_review_text)],
         nextId := db.nextId + 1 }, true) := by
  simp [processOne, ha, hc, hso, hacc, hts, hf]

/-- A record missing one of the five scorer keys raises `KeyError` while the
`values` tuple is built. -/
theorem processOne_err (db : DB) (now : Nat) (rec : ProcessedRecord)
    (h : recComplete rec = false) : processOne db now rec = .error "KeyError" := by
  cases ha : rec.academics_score <;> cases hc : rec.cost_score <;>
    cases hso : rec.social_score <;> cases hacc : rec.accommodation_score <;>
      cases hts : rec.theme_summary <;> simp_all [recComplete, processOne]

/-- A single-record batch whose record hits the update branch: the store is
rewritten in place and the run reports zero inserts, one update. -/
theorem insert_records_single_update (db : DB) (now : Nat) (rec : ProcessedRecord)
    (r : Row) (a c s ac : Int) (ts : String)
    (ha : rec.academics_score = some a) (hc : rec.cost_score = some c)
    (hso : rec.social_score = some s) (hacc : rec.accommodation_score = some ac)
    (hts : rec.theme_summary = some ts)
    (hf : db.rows.find? (matchKey rec.uni_name rec.raw_review_text "ai_processed") = some r) :
    insert_records now db [rec] =
      ({ db with rows := db.rows.map (fun x =>
          if x.id == r.id then
            updateRow x rec a c s ac ts (raw_language_guess rec.raw_review_text)
          else x) }, .ok (0, 1)) := by
  simp [insert_records, insertLoop, processOne_update db now rec r a c s ac ts ha hc hso hacc hts hf]

/-- A single-record batch whose record hits the insert branch: one new row is
appended and the run reports one insert, zero updates. -/
theorem insert_records_single_insert (db : DB) (now : Nat) (rec : ProcessedRecord)
    (a c s ac : Int) (ts : String)
    (ha : rec.academics_score = some a) (hc : rec.cost_score = some c)
    (hso : rec.social_score = some s) (hacc : rec.accommodation_score = some ac)
    (hts : rec.theme_summary = some ts)
    (hf : db.rows.find? (matchKey rec.uni_name rec.raw_review_text "ai_processed") = none) :
    insert_records now db [rec] =
      ({ rows := db.rows ++
          [insertRowFor db now rec a c s ac ts (raw_language_guess rec.raw_review_text)],
         nextId := db.nextId + 1 }, .ok (1, 0)) := by
  simp [insert_records, insertLoop, processOne_insert db now rec a c s ac ts ha hc hso hacc hts hf]

/-- A complete record exposes its five scorer values. -/
theorem recComplete_fields (rec : ProcessedRecord) (h : recComplete rec = true) :
    ∃ a c s ac ts, rec.academics_score = some a ∧ rec.cost_score = some c ∧
      rec.social_score = some s ∧ rec.accommodation_score = some ac ∧
      rec.theme_summary = some ts := by
  simp only [recComplete, Bool.and_eq_true] at h
  obtain ⟨⟨⟨⟨h1, h2⟩, h3⟩, h4⟩, h5⟩ := h
  obtain ⟨a, ha⟩ := Option.isSome_iff_exists.mp h1
  obtain ⟨c, hc⟩ := Option.isSome_iff_exists.mp h2
  obtain ⟨s, hs⟩ := Option.isSome_iff_exists.mp h3
  obtain ⟨ac, hac⟩ := Option.isSome_iff_exists.mp h4
  obtain ⟨ts, hts⟩ := Option.isSome_iff_exists.mp h5
  exact ⟨a, c, s, ac, ts, ha, hc, hs, hac, hts⟩

/-- The `UPDATE` of the batch writer touches no natural-key column, so key
counts are invariant under it. -/
theorem countKey_map_update (rows : List Row) (rid : Nat) (rec : ProcessedRecord)
    (a c s ac : Int) (ts lang : String) (u t rt : String) :
    (rows.map (fun x => if x.id == rid then updateRow x rec a c s ac ts lang else x)).countP
        (matchKey u t rt)
      = rows.countP (matchKey u t rt) := by
  rw [List.countP_map]
  exact countP_congr_local _ _ rows (fun x _ => by
    by_cases h : x.id == rid <;> simp [h, Function.comp, matchKey, updateRow])

/-- The row written by the `INSERT` branch carries the natural key of its
record with reviewer type `ai_processed`. -/
theorem matchKey_insertRowFor (db : DB) (now : Nat) (rec : ProcessedRecord)
    (a c s ac : Int) (ts lang : String) :
    matchKey rec.uni_name rec.raw_review_text "ai_processed"
      (insertRowFor db now rec a c s ac ts lang) = true := by
  simp [matchKey, insertRowFor]

/-- C3: the upsert is key-stable.  Starting from a store holding at most one
row with the natural key `(entity_name, free_text, ai_processed)`, two
successive batch runs each persisting a complete record with that key leave
exactly one stored row carrying the key, and the second run reports zero
inserts and one update (it updated instead of duplicating). -/
theorem c3_key_stable (now1 now2 : Nat) (db : DB) (r1 r2 : ProcessedRecord)
    (h1 : recComplete r1 = true) (h2 : recComplete r2 = true)
    (hu : r2.uni_name = r1.uni_name) (ht : r2.raw_review_text = r1.raw_review_text)
    (hcnt : countKey db r1.uni_name r1.raw_review_text "ai_processed" ≤ 1) :
    countKey (insert_records now2 (insert_records now1 db [r1]).1 [r2]).1
        r1.uni_name r1.raw_review_text "ai_processed" = 1 ∧
    (insert_records now2 (insert_records now1 db [r1]).1 [r2]).2 = Except.ok (0, 1) := by
  obtain ⟨a1, c1, s1, ac1, ts1, ha1, hc1, hs1, hac1, hts1⟩ := recComplete_fields r1 h1
  obtain ⟨a2, c2, s2, ac2, ts2, ha2, hc2, hs2, hac2, hts2⟩ := recComplete_fields r2 h2
  cases hf1 : db.rows.find? (matchKey r1.uni_name r1.raw_review_text "ai_processed") with
  | none =>
    rw [insert_records_single_insert db now1 r1 a1 c1 s1 ac1 ts1 ha1 hc1 hs1 hac1 hts1 hf1]
    have hzero : db.rows.countP (matchKey r1.uni_name r1.raw_review_text "ai_processed") = 0 := by
      rw [List.countP_eq_zero]
      exact List.find?_eq_none.mp hf1
    have hone : countKey
        ⟨db.rows ++ [insertRowFor db now1 r1 a1 c1 s1 ac1 ts1
          (raw_language_guess r1.raw_review_text)], db.nextId + 1⟩
        r1.uni_name r1.raw_review_text "ai_processed" = 1 := by
      unfold countKey
      rw [List.countP_append, hzero]
      simp [matchKey_insertRowFor]
    cases hf2 : (db.rows ++ [insertRowFor db now1 r1 a1 c1 s1 ac1 ts1
        (raw_language_guess r1.raw_review_text)]).find?
          (matchKey r2.uni_name r2.raw_review_text "ai_processed") with
    | none =>
      exfalso
      have := List.find?_eq_none.mp hf2
        (insertRowFor db now1 r1 a1 c1 s1 ac1 ts1 (raw_language_guess r1.raw_review_text))
        (by simp)
      rw [hu, ht] at this
      exact this (matchKey_insertRowFor db now1 r1 a1 c1 s1 ac1 ts1 _)
    | some rr =>
      rw [insert_records_single_update _ now2 r2 rr a2 c2 s2 ac2 ts2 ha2 hc2 hs2 hac2 hts2 hf2]
      refine ⟨?_, rfl⟩
      unfold countKey
      rw [countKey_map_update]
      exact hone
  | some r =>
    have hpos : 0 < countKey db r1.uni_name r1.raw_review_text "ai_processed" := by
      unfold countKey
      exact List.countP_pos_iff.mpr ⟨r, List.mem_of_find?_eq_some hf1, List.find?_some hf1⟩
    have heq1 : countKey db r1.uni_name r1.raw_review_text "ai_processed" = 1 := by omega
    rw [insert_records_single_update db now1 r1 r a1 c1 s1 ac1 ts1 ha1 hc1 hs1 hac1 hts1 hf1]
    have hone : countKey
        ⟨db.rows.map (fun x => if x.id == r.id then
            updateRow x r1 a1 c1 s1 ac1 ts1 (raw_language_guess r1.raw_review_text) else x),
          db.nextId⟩
        r1.uni_name r1.raw_review_text "ai_processed" = 1 := by
      unfold countKey
      rw [countKey_map_update]
      exact heq1
    cases hf2 : (db.rows.map (fun x => if x.id == r.id then
        updateRow x r1 a1 c1 s1 ac1 ts1 (raw_language_guess r1.raw_review_text) else x)).find?
          (matchKey r2.uni_name r2.raw_review_text "ai_processed") with
    | none =>
      exfalso
      have hz : (db.rows.map (fun x => if x.id == r.id then
          updateRow x r1 a1 c1 s1 ac1 ts1 (raw_language_guess r1.raw_review_text) else x)).countP
            (matchKey r2.uni_name r2.raw_review_text "ai_processed") = 0 := by
        rw [List.countP_eq_zero]
        exact List.find?_eq_none.mp hf2
      rw [hu, ht] at hz
      unfold countKey at hone
      simp only [hz] at hone
      cases hone
    | some rr =>
      rw [insert_records_single_update _ now2 r2 rr a2 c2 s2 ac2 ts2 ha2 hc2 hs2 hac2 hts2 hf2]
      refine ⟨?_, rfl⟩
      unfold countKey
      rw [countKey_map_update]
      exact hone

/-- An empty-store double run with the same complete record. -/
def rec3 : ProcessedRecord :=
  { uni_name := "Alpha U", city := some "Amman", source_type := "csv_survey"
    raw_review_text := "Great academics, costly rent."
    overall_sentiment := some "Positive", academics_score := some 5, cost_score := some 2
    social_score := some 4, accommodation_score := some 3
    theme_summary := some "Strong academics, high rent.", major := ["General Studies"] }

/-- Witness for C3: running the batch twice with the same concrete record on
an empty store leaves exactly one row with its natural key, the second run
reporting one update and no insert. -/
theorem c3_witness :
    countKey (insert_records 4 (insert_records 3 ⟨[], 1⟩ [rec3]).1 [rec3]).1
        rec3.uni_name rec3.raw_review_text "ai_processed" = 1 ∧
    (insert_records 4 (insert_records 3 ⟨[], 1⟩ [rec3]).1 [rec3]).2 = Except.ok (0, 1) :=
  c3_key_stable 3 4 ⟨[], 1⟩ rec3 rec3 (by rfl) (by rfl) rfl rfl (by decide)

/-- When some record of the batch is missing a scorer key, the loop raises
before finishing, whatever prefix of the batch was already written. -/
theorem insertLoop_err (now : Nat) :
    ∀ (recs : List ProcessedRecord) (db : DB) (ic uc : Nat),
      (∃ rec ∈ recs, recComplete rec = false) →
      insertLoop now db ic uc recs = .error "KeyError"
  | [], _, _, _, h => by simp at h
  | rec :: rest, db, ic, uc, h => by
    cases hcomp : recComplete rec with
    | false => simp [insertLoop, processOne_err db now rec hcomp]
    | true =>
      obtain ⟨bad, hmem, hbad⟩ := h
      have hbadrest : ∃ b ∈ rest, recComplete b = false := by
        cases List.mem_cons.mp hmem with
        | inl he => rw [he] at hbad; rw [hbad] at hcomp; cases hcomp
        | inr hr => exact ⟨bad, hr, hbad⟩
      obtain ⟨a, c, s, ac, ts, ha, hc, hs, hac, hts⟩ := recComplete_fields rec hcomp
      cases hf : db.rows.find? (matchKey rec.uni_name rec.raw_review_text "ai_processed") with
      | some r =>
        simp only [insertLoop, processOne_update db now rec r a c s ac ts ha hc hs hac hts hf]
        exact insertLoop_err now rest _ ic (uc + 1) hbadrest
      | none =>
        simp only [insertLoop, processOne_insert db now rec a c s ac ts ha hc hs hac hts hf]
        exact insertLoop_err now rest _ (ic + 1) uc hbadrest

/-- When every record of the batch carries its five scorer keys, the loop
reaches the end: each record is counted exactly once (insert or update), and
the store grows by exactly the number of inserts. -/
theorem insertLoop_ok_all (now : Nat) :
    ∀ (recs : List ProcessedRecord) (db : DB) (ic uc : Nat),
      (∀ rec ∈ recs, recComplete rec = true) →
      ∃ db2 ic2 uc2, insertLoop now db ic uc recs = .ok (db2, ic2, uc2) ∧
        ic2 + uc2 = ic + uc + recs.length ∧
        db2.rows.length + ic = db.rows.length + ic2
  | [], db, ic, uc, _ => ⟨db, ic, uc, rfl, by simp, by simp⟩
  | rec :: rest, db, ic, uc, h => by
    obtain ⟨a, c, s, ac, ts, ha, hc, hs, hac, hts⟩ :=
      recComplete_fields rec (h rec (by simp))
    have hrest : ∀ x ∈ rest, recComplete x = true := fun x hx => h x (by simp [hx])
    cases hf : db.rows.find? (matchKey rec.uni_name rec.raw_review_text "ai_processed") with
    | some r =>
      obtain ⟨db2, ic2, uc2, heq, hcount, hlen⟩ :=
        insertLoop_ok_all now rest
          ⟨db.rows.map (fun x => if x.id == r.id then
            updateRow x rec a c s ac ts (raw_language_guess rec.raw_review_text) else x),
            db.nextId⟩ ic (uc + 1) hrest
      refine ⟨db2, ic2, uc2, ?_, by simp only [List.length_cons]; omega, ?_⟩
      · simp only [insertLoop, processOne_update db now rec r a c s ac ts ha hc hs hac hts hf]
        exact heq
      · simp only [List.length_map] at hlen
        omega
    | none =>
      obtain ⟨db2, ic2, uc2, heq, hcount, hlen⟩ :=
        insertLoop_ok_all now rest
          ⟨db.rows ++ [insertRowFor db now rec a c s ac ts
            (raw_language_guess rec.raw_review_text)], db.nextId + 1⟩ (ic + 1) uc hrest
      refine ⟨db2, ic2, uc2, ?_, by simp only [List.length_cons]; omega, ?_⟩
      · simp only [insertLoop, processOne_insert db now rec a c s ac ts ha hc hs hac hts hf]
        exact heq
      · simp only [List.length_append, List.length_cons, List.length_nil] at hlen
        omega

/-- C4: persisting a batch is all-or-nothing.  If any record of the batch is
missing one of the five scorer keys, the whole run raises: the store comes
back exactly as before the call (every already-written row of the batch is
rolled back) and the caller observes the error with no insert/update counts.
If every record is complete, the run commits and reports counts that add up
to the batch size, the store growing by exactly the insert count. -/
theorem c4_transaction (now : Nat) (db : DB) (recs : List ProcessedRecord) :
    ((∃ rec ∈ recs, recComplete rec = false) →
      insert_records now db recs = (db, .error "KeyError")) ∧
    ((∀ rec ∈ recs, recComplete rec = true) →
      ∃ db2 ic uc, insert_records now db recs = (db2, .ok (ic, uc)) ∧
        ic + uc = recs.length ∧ db2.rows.length = db.rows.length + ic) := by
  constructor
  · intro h
    simp [insert_records, insertLoop_err now recs db 0 0 h]
  · intro h
    obtain ⟨db2, ic2, uc2, heq, hcount, hlen⟩ := insertLoop_ok_all now recs db 0 0 h
    exact ⟨db2, ic2, uc2, by simp [insert_records, heq], by omega, by omega⟩

/-- A complete record, the first of the failing batch below. -/
def goodRec4 : ProcessedRecord :=
  { uni_name := "Beta U", city := some "Irbid", source_type := "csv_survey"
    raw_review_text := "Fine overall.", overall_sentiment := some "Neutral"
    academics_score := some 3, cost_score := some 3, social_score := some 3
    accommodation_score := some 3, theme_summary := some "Average.", major := ["General Studies"] }

/-- A record whose scorer response lacked `academics_score`. -/
def badRec4 : ProcessedRecord :=
  { uni_name := "Alpha U", city := none, source_type := "csv_survey"
    raw_review_text := "Quite good.", overall_sentiment := some "Positive"
    academics_score := none, cost_score := some 3, social_score := some 3
    accommodation_score := some 3, theme_summary := some "Good.", major := ["General Studies"] }

/-- Witness for C4: a concrete batch whose second record is incomplete rolls
back entirely — the store equals its pre-call value even though the first
record had already been written inside the transaction — and the error is
reported without counts. -/
theorem c4_witness :
    insert_records 0 ⟨[], 1⟩ [goodRec4, badRec4] = (⟨[], 1⟩, .error "KeyError") :=
  (c4_transaction 0 ⟨[], 1⟩ [goodRec4, badRec4]).1 ⟨badRec4, by simp, by rfl⟩

/-- C6 (amended): when the natural-key lookup finds an existing row, the
batch writer updates, on the rows carrying that id, exactly the columns of
its `UPDATE` statement — city (region), source_type, detected language, the
four scores, summary, moderation status (forced to `approved`) and major —
while the row identity, `created_at`, the natural-key columns and the stored
`overall_sentiment` are preserved unchanged; the sentiment label is NOT
among the updated columns. -/
theorem c6_amended (db : DB) (now : Nat) (rec : ProcessedRecord) (r : Row)
    (a c s ac : Int) (ts : String)
    (ha : rec.academics_score = some a) (hc : rec.cost_score = some c)
    (hso : rec.social_score = some s) (hacc : rec.accommodation_score = some ac)
    (hts : rec.theme_summary = some ts)
    (hf : db.rows.find? (matchKey rec.uni_name rec.raw_review_text "ai_processed") = some r) :
    processOne db now rec = .ok
      ({ db with rows := db.rows.map (fun x =>
          if x.id == r.id then
            updateRow x rec a c s ac ts (raw_language_guess rec.raw_review_text)
          else x) }, false) ∧
    (∀ x : Row,
      (updateRow x rec a c s ac ts (raw_language_guess rec.raw_review_text)).id = x.id ∧
      (updateRow x rec a c s ac ts (raw_language_guess rec.raw_review_text)).created_at
        = x.created_at ∧
      (updateRow x rec a c s ac ts (raw_language_guess rec.raw_review_text)).uni_name
        = x.uni_name ∧
      (updateRow x rec a c s ac ts (raw_language_guess rec.raw_review_text)).raw_review_text
        = x.raw_review_text ∧
      (updateRow x rec a c s ac ts (raw_language_guess rec.raw_review_text)).reviewer_type
        = x.reviewer_type ∧
      (updateRow x rec a c s ac ts (raw_language_guess rec.raw_review_text)).overall_sentiment
        = x.overall_sentiment) ∧
    (∀ x : Row,
      (updateRow x rec a c s ac ts (raw_language_guess rec.raw_review_text)).city = rec.city ∧
      (updateRow x rec a c s ac ts (raw_language_guess rec.raw_review_text)).source_type
        = rec.source_type ∧
      (updateRow x rec a c s ac ts (raw_language_guess rec.raw_review_text)).raw_language
        = raw_language_guess rec.raw_review_text ∧
      (updateRow x rec a c s ac ts (raw_language_guess rec.raw_review_text)).academics_score
        = a ∧
      (updateRow x rec a c s ac ts (raw_language_guess rec.raw_review_text)).cost_score = c ∧
      (updateRow x rec a c s ac ts (raw_language_guess rec.raw_review_text)).social_score
        = s ∧
      (updateRow x rec a c s ac ts (raw_language_guess rec.raw_review_text)).accommodation_score
        = ac ∧
      (updateRow x rec a c s ac ts (raw_language_guess rec.raw_review_text)).theme_summary
        = some ts ∧
      (updateRow x rec a c s ac ts (raw_language_guess rec.raw_review_text)).status
        = "approved" ∧
      (updateRow x rec a c s ac ts (raw_language_guess rec.raw_review_text)).major
        = some rec.major) := by
  exact ⟨processOne_update db now rec r a c s ac ts ha hc hso hacc hts hf,
    fun x => ⟨rfl, rfl, rfl, rfl, rfl, rfl⟩,
    fun x => ⟨rfl, rfl, rfl, rfl, rfl, rfl, rfl, rfl, rfl, rfl⟩⟩

/-- An existing AI-processed row with a stored sentiment label. -/
def row6 : Row :=
  { id := 1, uni_name := "Alpha U", city := some "Amman", source_type := "csv_survey"
    raw_language := "en", academics_score := 4, cost_score := 4, social_score := 4
    accommodation_score := 4, overall_sentiment := some "Positive"
    theme_summary := some "old summary", raw_review_text := "T"
    reviewer_type := "ai_processed", status := "approved"
    major := some ["General Studies"], created_at := 0 }

/-- A store holding only that row. -/
def db6 : DB := ⟨[row6], 2⟩

/-- A re-processed record with the same natural key and a different
sentiment label. -/
def rec6 : ProcessedRecord :=
  { uni_name := "Alpha U", city := some "Amman", source_type := "csv_survey"
    raw_review_text := "T", overall_sentiment := some "Negative"
    academics_score := some 2, cost_score := some 2, social_score := some 2
    accommodation_score := some 2, theme_summary := some "new summary"
    major := ["General Studies"] }

/-- C6 counterexample: re-processing a stored review whose scorer response
now carries sentiment `Negative` leaves the stored sentiment at `Positive`
while the scores and summary do change — so the update does not cover the
sentiment field the claim lists among the updated ones. -/
theorem c6_counterexample :
    ((insert_records 0 db6 [rec6]).1.rows.map (fun r => r.overall_sentiment))
      = [some "Positive"] ∧
    rec6.overall_sentiment = some "Negative" ∧
    ((insert_records 0 db6 [rec6]).1.rows.map (fun r => r.academics_score)) = [2] ∧
    ((insert_records 0 db6 [rec6]).1.rows.map (fun r => r.theme_summary))
      = [some "new summary"] := by
  exact ⟨rfl, rfl, rfl, rfl⟩

/-- Witness for the amended C6 at the concrete store above: the update
branch runs and every frame equality holds at the matched row. -/
theorem c6_witness :
    processOne db6 0 rec6 = .ok
      ({ db6 with rows := db6.rows.map (fun x =>
          if x.id == row6.id then
            updateRow x rec6 2 2 2 2 "new summary" (raw_language_guess rec6.raw_review_text)
          else x) }, false) ∧
    (∀ x : Row,
      (updateRow x rec6 2 2 2 2 "new summary" (raw_language_guess rec6.raw_review_text)).id
        = x.id ∧
      (updateRow x rec6 2 2 2 2 "new summary"
          (raw_language_guess rec6.raw_review_text)).created_at = x.created_at ∧
      (updateRow x rec6 2 2 2 2 "new summary"
          (raw_language_guess rec6.raw_review_text)).uni_name = x.uni_name ∧
      (updateRow x rec6 2 2 2 2 "new summary"
          (raw_language_guess rec6.raw_review_text)).raw_review_text = x.raw_review_text ∧
      (updateRow x rec6 2 2 2 2 "new summary"
          (raw_language_guess rec6.raw_review_text)).reviewer_type = x.reviewer_type ∧
      (updateRow x rec6 2 2 2 2 "new summary"
          (raw_language_guess rec6.raw_review_text)).overall_sentiment
        = x.overall_sentiment) ∧
    (∀ x : Row,
      (updateRow x rec6 2 2 2 2 "new summary" (raw_language_guess rec6.raw_review_text)).city
        = rec6.city ∧
      (updateRow x rec6 2 2 2 2 "new summary"
          (raw_language_guess rec6.raw_review_text)).source_type = rec6.source_type ∧
      (updateRow x rec6 2 2 2 2 "new summary"
          (raw_language_guess rec6.raw_review_text)).raw_language
        = raw_language_guess rec6.raw_review_text ∧
      (updateRow x rec6 2 2 2 2 "new summary"
          (raw_language_guess rec6.raw_review_text)).academics_score = 2 ∧
      (updateRow x rec6 2 2 2 2 "new summary"
          (raw_language_guess rec6.raw_review_text)).cost_score = 2 ∧
      (updateRow x rec6 2 2 2 2 "new summary"
          (raw_language_guess rec6.raw_review_text)).social_score = 2 ∧
      (updateRow x rec6 2 2 2 2 "new summary"
          (raw_language_guess rec6.raw_review_text)).accommodation_score = 2 ∧
      (updateRow x rec6 2 2 2 2 "new summary"
          (raw_language_guess rec6.raw_review_text)).theme_summary = some "new summary" ∧
      (updateRow x rec6 2 2 2 2 "new summary"
          (raw_language_guess rec6.raw_review_text)).status = "approved" ∧
      (updateRow x rec6 2 2 2 2 "new summary"
          (raw_language_guess rec6.raw_review_text)).major = some rec6.major) :=
  c6_amended db6 0 rec6 row6 2 2 2 2 "new summary" rfl rfl rfl rfl rfl (by rfl)

/-- C2 (amended): the backend applies no field-level validation to scorer
responses.  Any response whose five persisted keys are present is stored
as-is — the hypotheses place no bound on the scores, no constraint on the
summary (it may be empty) and none on the sentiment label, which is never
persisted by the batch writer at all (`overall_sentiment` of a fresh row is
NULL) — and a response missing a persisted key is not rejected individually:
the `KeyError` aborts the whole batch, which rolls back. -/
theorem c2_amended (now : Nat) (db : DB) (rec : ProcessedRecord)
    (a c s ac : Int) (ts : String)
    (ha : rec.academics_score = some a) (hc : rec.cost_score = some c)
    (hso : rec.social_score = some s) (hacc : rec.accommodation_score = some ac)
    (hts : rec.theme_summary = some ts)
    (hf : db.rows.find? (matchKey rec.uni_name rec.raw_review_text "ai_processed") = none) :
    insert_records now db [rec] =
      ({ rows := db.rows ++
          [insertRowFor db now rec a c s ac ts (raw_language_guess rec.raw_review_text)],
         nextId := db.nextId + 1 }, .ok (1, 0)) ∧
    (insertRowFor db now rec a c s ac ts
      (raw_language_guess rec.raw_review_text)).academics_score = a ∧
    (insertRowFor db now rec a c s ac ts
      (raw_language_guess rec.raw_review_text)).cost_score = c ∧
    (insertRowFor db now rec a c s ac ts
      (raw_language_guess rec.raw_review_text)).social_score = s ∧
    (insertRowFor db now rec a c s ac ts
      (raw_language_guess rec.raw_review_text)).accommodation_score = ac ∧
    (insertRowFor db now rec a c s ac ts
      (raw_language_guess rec.raw_review_text)).theme_summary = some ts ∧
    (insertRowFor db now rec a c s ac ts
      (raw_language_guess rec.raw_review_text)).overall_sentiment = none ∧
    ∀ rec2 : ProcessedRecord, rec2.academics_score = none →
      insert_records now db [rec2] = (db, .error "KeyError") := by
  refine ⟨insert_records_single_insert db now rec a c s ac ts ha hc hso hacc hts hf,
    rfl, rfl, rfl, rfl, rfl, rfl, fun rec2 h2 => ?_⟩
  have hbad : recComplete rec2 = false := by simp [recComplete, h2]
  simp [insert_records, insertLoop_err now [rec2] db 0 0 ⟨rec2, by simp, hbad⟩]

/-- A parsed scorer response with an out-of-enumeration sentiment, three
out-of-range scores and an empty summary. -/
def resp2 : ScorerResponse :=
  { overall_sentiment := some "Certainly splendid", academics_score := some 99
    cost_score := some 0, social_score := some (-3), accommodation_score := some 7
    theme_summary := some "" }

/-- A scorer oracle that always returns that response. -/
def badScorer2 : String → String → Option ScorerResponse := fun _ _ => some resp2

/-- A raw review reaching the scorer. -/
def raw2 : RawRecord :=
  { uni_name := "Alpha U", city := some "Amman", source_type := none
    raw_review_text := some "Great academics, costly rent." }

/-- C2 counterexample: the response above — out-of-range and non-enumerated
values, empty summary — is not treated as a failure: the pipeline accepts it
and the batch writer persists the row unchanged (scores 99, 0, -3, 7, empty
summary, status approved), where the claim requires the record to be
rejected. -/
theorem c2_counterexample :
    ((insert_records 0 ⟨[], 1⟩ (process_data_pipeline badScorer2 [raw2]).1).1.rows.map
        (fun r => (r.academics_score, r.cost_score, r.social_score, r.accommodation_score,
          r.overall_sentiment, r.theme_summary, r.status)))
      = [(99, 0, -3, 7, none, some "", "approved")] ∧
    (insert_records 0 ⟨[], 1⟩ (process_data_pipeline badScorer2 [raw2]).1).2
      = Except.ok (1, 0) := by
  exact ⟨rfl, rfl⟩

/-- The record the pipeline assembles from that response, fed directly to
the batch writer for the amended-claim witness. -/
def rec2w : ProcessedRecord :=
  { uni_name := "Alpha U", city := some "Amman", source_type := "csv_survey"
    raw_review_text := "Great academics, costly rent."
    overall_sentiment := some "Certainly splendid", academics_score := some 99
    cost_score := some 0, social_score := some (-3), accommodation_score := some 7
    theme_summary := some "", major := ["General Studies"] }

/-- An empty store for the C2 witness. -/
def db2w : DB := ⟨[], 1⟩

/-- Witness for the amended C2 at a concrete unvalidated response: the row
is stored as-is and a key-missing record aborts the whole run. -/
theorem c2_witness :
    insert_records 0 db2w [rec2w] =
      ({ rows := db2w.rows ++
          [insertRowFor db2w 0 rec2w 99 0 (-3) 7 "" (raw_language_guess rec2w.raw_review_text)],
         nextId := db2w.nextId + 1 }, .ok (1, 0)) ∧
    (insertRowFor db2w 0 rec2w 99 0 (-3) 7 ""
      (raw_language_guess rec2w.raw_review_text)).academics_score = 99 ∧
    (insertRowFor db2w 0 rec2w 99 0 (-3) 7 ""
      (raw_language_guess rec2w.raw_review_text)).cost_score = 0 ∧
    (insertRowFor db2w 0 rec2w 99 0 (-3) 7 ""
      (raw_language_guess rec2w.raw_review_text)).social_score = -3 ∧
    (insertRowFor db2w 0 rec2w 99 0 (-3) 7 ""
      (raw_language_guess rec2w.raw_review_text)).accommodation_score = 7 ∧
    (insertRowFor db2w 0 rec2w 99 0 (-3) 7 ""
      (raw_language_guess rec2w.raw_review_text)).theme_summary = some "" ∧
    (insertRowFor db2w 0 rec2w 99 0 (-3) 7 ""
      (raw_language_guess rec2w.raw_review_text)).overall_sentiment = none ∧
    ∀ rec2 : ProcessedRecord, rec2.academics_score = none →
      insert_records 0 db2w [rec2] = (db2w, .error "KeyError") :=
  c2_amended 0 db2w rec2w 99 0 (-3) 7 "" rfl rfl rfl rfl rfl (by rfl)

/-- Shape of every row the batch writer creates or rewrites: fixed
provenance constants and the script-heuristic language of its own text. -/
def batchWritten (r : Row) : Prop :=
  r.reviewer_type = "ai_processed" ∧ r.status = "approved" ∧
    r.raw_language = raw_language_guess r.raw_review_text

/-- One successful iteration of the batch writer preserves store
well-formedness, and every row of the new store is either an untouched old
row or carries the batch-writer shape. -/
theorem processOne_preserves (db : DB) (now : Nat) (rec : ProcessedRecord)
    (db2 : DB) (b : Bool) (hwf : WFdb db)
    (h : processOne db now rec = .ok (db2, b)) :
    WFdb db2 ∧ ∀ r2 ∈ db2.rows, r2 ∈ db.rows ∨ batchWritten r2 := by
  cases hcomp : recComplete rec with
  | false => rw [processOne_err db now rec hcomp] at h; cases h
  | true =>
    obtain ⟨a, c, s, ac, ts, ha, hc, hs, hac, hts⟩ := recComplete_fields rec hcomp
    cases hf : db.rows.find? (matchKey rec.uni_name rec.raw_review_text "ai_processed") with
    | some r =>
      rw [processOne_update db now rec r a c s ac ts ha hc hs hac hts hf] at h
      obtain ⟨h1, _⟩ := Prod.mk.injEq .. ▸ (Except.ok.inj h)
      subst h1
      have hkey := List.find?_some hf
      simp only [matchKey, Bool.and_eq_true, beq_iff_eq] at hkey
      obtain ⟨⟨hku, hkt⟩, hkr⟩ := hkey
      have hrmem := List.mem_of_find?_eq_some hf
      have hids : ((db.rows.map (fun x => if x.id == r.id then
          updateRow x rec a c s ac ts (raw_language_guess rec.raw_review_text) else x)).map
            (·.id)) = db.rows.map (·.id) := by
        rw [List.map_map]
        apply List.map_congr_left
        intro x _
        by_cases hx2 : x.id == r.id <;> simp [hx2, Function.comp, updateRow]
      constructor
      · constructor
        · rw [hids]; exact hwf.1
        · intro rr hrr
          obtain ⟨x, hx, hfx⟩ := List.mem_map.mp hrr
          have : rr.id = x.id := by
            subst hfx
            by_cases hx2 : x.id == r.id <;> simp [hx2, updateRow]
          rw [this]
          exact hwf.2 x hx
      · intro r2 hr2
        obtain ⟨x, hx, hfx⟩ := List.mem_map.mp hr2
        by_cases hx2 : x.id == r.id
        · right
          rw [if_pos hx2] at hfx
          have hxr : x = r :=
            List.inj_on_of_nodup_map hwf.1 hx hrmem (beq_iff_eq.mp hx2)
          subst hxr
          subst hfx
          refine ⟨?_, rfl, ?_⟩
          · show x.reviewer_type = "ai_processed"
            exact hkr
          · show raw_language_guess rec.raw_review_text
              = raw_language_guess x.raw_review_text
            rw [hkt]
        · left
          rw [if_neg hx2] at hfx
          exact hfx ▸ hx
    | none =>
      rw [processOne_insert db now rec a c s ac ts ha hc hs hac hts hf] at h
      obtain ⟨h1, _⟩ := Prod.mk.injEq .. ▸ (Except.ok.inj h)
      subst h1
      constructor
      · constructor
        · rw [List.map_append]
          refine List.Nodup.append hwf.1 (List.nodup_singleton _) ?_
          intro i hi hi2
          simp only [List.map_cons, List.map_nil, List.mem_singleton] at hi2
          obtain ⟨x, hx, hxid⟩ := List.mem_map.mp hi
          have := hwf.2 x hx
          rw [hxid] at this
          rw [hi2] at this
          simp [insertRowFor] at this
        · intro rr hrr
          show rr.id < db.nextId + 1
          rcases List.mem_append.mp hrr with hold | hnew
          · have := hwf.2 rr hold
            omega
          · rw [List.mem_singleton.mp hnew]
            simp [insertRowFor]
      · intro r2 hr2
        rcases List.mem_append.mp hr2 with hold | hnew
        · exact .inl hold
        · right
          rw [List.mem_singleton.mp hnew]
          exact ⟨rfl, rfl, rfl⟩

/-- The batch-writer loop preserves well-formedness and the per-row shape
property across the whole batch. -/
theorem insertLoop_preserves (now : Nat) :
    ∀ (recs : List ProcessedRecord) (db : DB) (ic uc : Nat) (db2 : DB) (ic2 uc2 : Nat),
      WFdb db → insertLoop now db ic uc recs = .ok (db2, ic2, uc2) →
      WFdb db2 ∧ ∀ r2 ∈ db2.rows, r2 ∈ db.rows ∨ batchWritten r2
  | [], db, ic, uc, db2, ic2, uc2, hwf, h => by
    simp only [insertLoop, Except.ok.injEq, Prod.mk.injEq] at h
    obtain ⟨h1, _, _⟩ := h
    subst h1
    exact ⟨hwf, fun r2 hr2 => .inl hr2⟩
  | rec :: rest, db, ic, uc, db2, ic2, uc2, hwf, h => by
    cases hp : processOne db now rec with
    | error e => simp [insertLoop, hp] at h
    | ok pr =>
      obtain ⟨db1, b⟩ := pr
      have step := processOne_preserves db now rec db1 b hwf hp
      cases b with
      | true =>
        simp only [insertLoop, hp] at h
        have ih := insertLoop_preserves now rest db1 (ic + 1) uc db2 ic2 uc2 step.1 h
        refine ⟨ih.1, fun r2 hr2 => ?_⟩
        rcases ih.2 r2 hr2 with h1 | hbw
        · exact step.2 r2 h1
        · exact .inr hbw
      | false =>
        simp only [insertLoop, hp] at h
        have ih := insertLoop_preserves now rest db1 ic (uc + 1) db2 ic2 uc2 step.1 h
        refine ⟨ih.1, fun r2 hr2 => ?_⟩
        rcases ih.2 r2 hr2 with h1 | hbw
        · exact step.2 r2 h1
        · exact .inr hbw

/-- Every row present after a batch run over a well-formed store is either a
pre-existing row or carries the batch-writer shape (the rollback case leaves
the store unchanged). -/
theorem insert_records_rows_prop (now : Nat) (db : DB) (recs : List ProcessedRecord)
    (hwf : WFdb db) :
    ∀ r2 ∈ (insert_records now db recs).1.rows, r2 ∈ db.rows ∨ batchWritten r2 := by
  intro r2 hr2
  unfold insert_records at hr2
  cases hl : insertLoop now db 0 0 recs with
  | error e => rw [hl] at hr2; exact .inl hr2
  | ok out =>
    obtain ⟨db2, ic2, uc2⟩ := out
    rw [hl] at hr2
    exact (insertLoop_preserves now recs db 0 0 db2 ic2 uc2 hwf hl).2 r2 hr2

/-- C7: provenance invariant.  A validated user submission is stored with
`reviewer_type = user_submitted` and `moderation_status = pending`; every
row a batch run adds or rewrites (over a well-formed store) carries
`reviewer_type = ai_processed` and `moderation_status = approved`; and the
aggregation endpoint computes the same output from the store as from the
store restricted to its `approved` rows — it considers approved rows
only. -/
theorem c7_provenance (db : DB) (d : SubmissionData) (now : Nat)
    (recs : List ProcessedRecord)
    (hreq : requiredPresent d = true) (hwf : WFdb db) :
    ((submit_review db d now).2 = .created ∧
      ∀ r2 ∈ (submit_review db d now).1.rows,
        r2 ∈ db.rows ∨ (r2.reviewer_type = "user_submitted" ∧ r2.status = "pending")) ∧
    (∀ r2 ∈ (insert_records now db recs).1.rows,
      r2 ∈ db.rows ∨ (r2.reviewer_type = "ai_processed" ∧ r2.status = "approved")) ∧
    get_unis_live db
      = get_unis_live ⟨db.rows.filter (fun r => r.status == "approved"), db.nextId⟩ := by
  refine ⟨⟨?_, ?_⟩, ?_, ?_⟩
  · simp [submit_review, hreq]
  · intro r2 hr2
    simp only [submit_review, hreq, if_pos] at hr2
    rcases List.mem_append.mp hr2 with hold | hnew
    · exact .inl hold
    · right
      rw [List.mem_singleton.mp hnew]
      exact ⟨rfl, rfl⟩
  · intro r2 hr2
    rcases insert_records_rows_prop now db recs hwf r2 hr2 with hold | hbw
    · exact .inl hold
    · exact .inr ⟨hbw.1, hbw.2.1⟩
  · unfold get_unis_live approvedRows
    simp [List.filter_filter]

/-- A validated concrete submission for the C7 witness. -/
def d7 : SubmissionData :=
  { uni_name := some "Beta U", city := some "Irbid", raw_review_text := some "Nice."
    raw_language := none, academics_score := some 4, cost_score := some 4
    social_score := some 4, accommodation_score := some 4, theme_summary := none }

/-- A complete batch record for the C7 witness. -/
def rec7 : ProcessedRecord :=
  { uni_name := "Beta U", city := some "Irbid", source_type := "html_scrape"
    raw_review_text := "Calm campus.", overall_sentiment := some "Neutral"
    academics_score := some 3, cost_score := some 4, social_score := some 2
    accommodation_score := some 5, theme_summary := some "Calm.", major := ["General Studies"] }

/-- Witness for C7 on an empty well-formed store and the concrete submission
and batch record above. -/
theorem c7_witness :
    ((submit_review ⟨[], 1⟩ d7 9).2 = .created ∧
      ∀ r2 ∈ (submit_review ⟨[], 1⟩ d7 9).1.rows,
        r2 ∈ (⟨[], 1⟩ : DB).rows ∨
          (r2.reviewer_type = "user_submitted" ∧ r2.status = "pending")) ∧
    (∀ r2 ∈ (insert_records 9 ⟨[], 1⟩ [rec7]).1.rows,
      r2 ∈ (⟨[], 1⟩ : DB).rows ∨
        (r2.reviewer_type = "ai_processed" ∧ r2.status = "approved")) ∧
    get_unis_live ⟨[], 1⟩
      = get_unis_live ⟨(⟨[], 1⟩ : DB).rows.filter (fun r => r.status == "approved"), 1⟩ :=
  c7_provenance ⟨[], 1⟩ d7 9 [rec7] (by rfl) (by simp [WFdb])

/-- C8: for every row a successful batch run writes (over a well-formed
store), the stored `raw_language` is `ar` exactly when the row's own review
text contains a character of the Arabic Unicode block and `en` exactly when
it does not; and the script test is precisely "some character has code point
between 0x600 and 0x6FF". -/
theorem c8_language (now : Nat) (db : DB) (recs : List ProcessedRecord) (t : String)
    (hwf : WFdb db) :
    (∀ r2 ∈ (insert_records now db recs).1.rows, r2 ∈ db.rows ∨
      ((r2.raw_language = "ar" ↔ containsArabic r2.raw_review_text = true) ∧
       (r2.raw_language = "en" ↔ containsArabic r2.raw_review_text = false))) ∧
    (containsArabic t = true ↔ ∃ c ∈ t.data, 0x600 ≤ c.toNat ∧ c.toNat ≤ 0x6FF) := by
  constructor
  · intro r2 hr2
    rcases insert_records_rows_prop now db recs hwf r2 hr2 with hold | hbw
    · exact .inl hold
    · right
      rw [hbw.2.2, raw_language_guess]
      cases hca : containsArabic r2.raw_review_text <;> simp [hca]
  · simp [containsArabic, arabicChar, List.any_eq_true]

/-- A batch record whose text is Arabic script. -/
def rec8a : ProcessedRecord :=
  { uni_name := "Gamma U", city := some "Amman", source_type := "csv_survey"
    raw_review_text := "جامعة جيدة جدا", overall_sentiment := some "Positive"
    academics_score := some 5, cost_score := some 3, social_score := some 4
    accommodation_score := some 4, theme_summary := some "Good.", major := ["General Studies"] }

/-- A batch record whose text is Latin script. -/
def rec8b : ProcessedRecord :=
  { uni_name := "Gamma U", city := some "Amman", source_type := "csv_survey"
    raw_review_text := "Decent place to study.", overall_sentiment := some "Neutral"
    academics_score := some 3, cost_score := some 3, social_score := some 3
    accommodation_score := some 3, theme_summary := some "Okay.", major := ["General Studies"] }

/-- Witness for C8 on an empty well-formed store with one Arabic-script and
one Latin-script record. -/
theorem c8_witness :
    (∀ r2 ∈ (insert_records 2 ⟨[], 1⟩ [rec8a, rec8b]).1.rows,
      r2 ∈ (⟨[], 1⟩ : DB).rows ∨
        ((r2.raw_language = "ar" ↔ containsArabic r2.raw_review_text = true) ∧
         (r2.raw_language = "en" ↔ containsArabic r2.raw_review_text = false))) ∧
    (containsArabic "جامعة جيدة جدا" = true ↔
      ∃ c ∈ ("جامعة جيدة جدا" : String).data, 0x600 ≤ c.toNat ∧ c.toNat ≤ 0x6FF) :=
  c8_language 2 ⟨[], 1⟩ [rec8a, rec8b] "جامعة جيدة جدا" (by simp [WFdb])

/-- C5 (amended): after a moderation-status change through the admin
endpoint, the cache entry of the affected university is removed (forcing the
next aggregate read to recompute from the store) and every other cache entry
is untouched; but a successful insert does not invalidate the cache — the
batch writer and the submission endpoint never reference the aggregate
cache, so an existing entry survives inserts and keeps serving its old
value. -/
theorem c5_amended (s : AppState) (rid : Nat) (ns : String) (r : Row)
    (hns : ns = "approved" ∨ ns = "rejected")
    (hr : r ∈ s.db.rows) (hid : r.id = rid)
    (hnodup : (s.db.rows.map (·.id)).Nodup) :
    update_review_status s rid ns true =
      ({ db := ⟨s.db.rows.map (fun x => if x.id == rid then { x with status := ns } else x),
                s.db.nextId⟩,
         cache := s.cache.filter (fun p => p.1 != r.uni_name) }, .ok) ∧
    lookupCache (s.cache.filter (fun p => p.1 != r.uni_name)) r.uni_name = none ∧
    (∀ u, u ≠ r.uni_name →
      lookupCache (s.cache.filter (fun p => p.1 != r.uni_name)) u = lookupCache s.cache u) ∧
    (get_university_details
        ⟨⟨s.db.rows.map (fun x => if x.id == rid then { x with status := ns } else x),
          s.db.nextId⟩,
         s.cache.filter (fun p => p.1 != r.uni_name)⟩ r.uni_name).2
      = computeUniDetails
          ⟨s.db.rows.map (fun x => if x.id == rid then { x with status := ns } else x),
           s.db.nextId⟩ r.uni_name := by
  have hnsb : (ns == "approved" || ns == "rejected") = true := by
    rcases hns with h | h <;> simp [h]
  have hpos : 0 < s.db.rows.countP (fun x => x.id == rid) :=
    List.countP_pos_iff.mpr ⟨r, hr, by simp [hid]⟩
  have hc0 : (s.db.rows.countP (fun x => x.id == rid) == 0) = false := by
    cases h : s.db.rows.countP (fun x => x.id == rid) == 0 with
    | false => rfl
    | true =>
      simp only [beq_iff_eq] at h
      omega
  have hlook : lookupCache (s.cache.filter (fun p => p.1 != r.uni_name)) r.uni_name = none := by
    unfold lookupCache
    rw [List.find?_eq_none.mpr ?_]
    · rfl
    · intro p hp
      have h2 := (List.mem_filter.mp hp).2
      simp only [bne_iff_ne, ne_eq] at h2
      simp only [beq_iff_eq]
      exact h2
  cases hfind : (s.db.rows.map (fun x => if x.id == rid then { x with status := ns } else x)).find?
      (fun x => x.id == rid) with
  | none =>
    exfalso
    have hmem : ({ r with status := ns } : Row) ∈
        s.db.rows.map (fun x => if x.id == rid then { x with status := ns } else x) := by
      refine List.mem_map.mpr ⟨r, hr, ?_⟩
      simp [hid]
    have := List.find?_eq_none.mp hfind _ hmem
    simp [hid] at this
  | some r2 =>
    have hp2 : r2.id = rid := by
      have h2 := List.find?_some hfind
      simpa using h2
    have hmem2 := List.mem_of_find?_eq_some hfind
    obtain ⟨x, hx, hfx⟩ := List.mem_map.mp hmem2
    have hxid : x.id = rid := by
      have hidx : r2.id = x.id := by
        rw [← hfx]
        by_cases h2 : x.id == rid <;> simp [h2]
      rw [← hidx]
      exact hp2
    have hxr : x = r := List.inj_on_of_nodup_map hnodup hx hr (by rw [hxid, hid])
    have hr2eq : r2 = { r with status := ns } := by
      rw [← hfx, hxr]
      simp [show (r.id == rid) = true from by simp [hid]]
    have hname : r2.uni_name = r.uni_name := by rw [hr2eq]
    have heq : update_review_status s rid ns true =
        ({ db := ⟨s.db.rows.map (fun x => if x.id == rid then { x with status := ns } else x),
                  s.db.nextId⟩,
           cache := s.cache.filter (fun p => p.1 != r.uni_name) }, .ok) := by
      rw [← hname]
      simp [update_review_status, hnsb, hc0, hfind, -beq_iff_eq, -List.find?_map]
    refine ⟨heq, hlook, ?_, ?_⟩
    · intro u hu
      have himp : ∀ p : String × UniDetails, (p.1 == u) = true → (p.1 != r.uni_name) = true := by
        intro p hp
        have hpu : p.1 = u := beq_iff_eq.mp hp
        simp only [hpu, bne_iff_ne, ne_eq]
        exact hu
      unfold lookupCache
      rw [find?_filter_of_imp _ _ himp s.cache]
    · cases hcd : computeUniDetails
          ⟨s.db.rows.map (fun x => if x.id == rid then { x with status := ns } else x),
            s.db.nextId⟩ r.uni_name with
      | none => simp [get_university_details, hlook, hcd, -beq_iff_eq, -List.find?_map]
      | some v => simp [get_university_details, hlook, hcd, -beq_iff_eq, -List.find?_map]

/-- A stored approved AI row used for the C5 scenario. -/
def row5 : Row :=
  { id := 1, uni_name := "Alpha U", city := some "Amman", source_type := "csv_survey"
    raw_language := "en", academics_score := 4, cost_score := 4, social_score := 4
    accommodation_score := 4, overall_sentiment := none, theme_summary := some "s1"
    raw_review_text := "T1", reviewer_type := "ai_processed", status := "approved"
    major := some ["General Studies"], created_at := 0 }

/-- The aggregate the read endpoint cached for that store: one review,
every mean 4. -/
def stale5 : UniDetails :=
  { uni_name := "Alpha U", city := some "Amman", avg_academics := 4, avg_cost := 4
    avg_social := 4, avg_accommodation := 4, overall_score := 4, theme_summary := some "s1" }

/-- Application state whose cache holds the aggregate above. -/
def app5 : AppState := ⟨⟨[row5], 2⟩, [("Alpha U", stale5)]⟩

/-- A fresh complete record for the same university with different scores. -/
def rec5 : ProcessedRecord :=
  { uni_name := "Alpha U", city := some "Amman", source_type := "csv_survey"
    raw_review_text := "T2", overall_sentiment := some "Positive"
    academics_score := some 2, cost_score := some 2, social_score := some 2
    accommodation_score := some 2, theme_summary := some "s2", major := ["General Studies"] }

/-- Batteries' rational floor agrees with the floor of the `FloorRing`
instance it induces. -/
theorem ratFloor_eq (q : Rat) : q.floor = ⌊q⌋ := rfl

/-- The row the batch run of the C5 counterexample inserts. -/
def row5b : Row :=
  { id := 2, uni_name := "Alpha U", city := some "Amman", source_type := "csv_survey"
    raw_language := "en", academics_score := 2, cost_score := 2, social_score := 2
    accommodation_score := 2, overall_sentiment := none, theme_summary := some "s2"
    raw_review_text := "T2", reviewer_type := "ai_processed", status := "approved"
    major := some ["General Studies"], created_at := 7 }

/-- C5 counterexample: a successful batch insert for `Alpha U` leaves the
aggregate cache untouched — the entry for `Alpha U` is still present, the
next aggregate read serves the stale cached mean 4 although recomputing from
the store now yields mean 3 — so inserts do not invalidate the cache as the
claim states. -/
theorem c5_counterexample :
    (run_batch app5 7 [rec5]).2 = Except.ok (1, 0) ∧
    (run_batch app5 7 [rec5]).1.cache = app5.cache ∧
    lookupCache (run_batch app5 7 [rec5]).1.cache "Alpha U" = some stale5 ∧
    (get_university_details (run_batch app5 7 [rec5]).1 "Alpha U").2 = some stale5 ∧
    (computeUniDetails (run_batch app5 7 [rec5]).1.db "Alpha U").map (fun v => v.avg_academics)
      = some 3 ∧
    stale5.avg_academics = 4 := by
  refine ⟨rfl, rfl, rfl, rfl, ?_, rfl⟩
  have hdb : (run_batch app5 7 [rec5]).1.db = ⟨[row5, row5b], 3⟩ := rfl
  rw [hdb]
  have hflt : ((approvedRows ⟨[row5, row5b], 3⟩).filter (fun r => r.uni_name == "Alpha U"))
      = [row5, row5b] := rfl
  have hg : (row5 :: [row5b]).filter (fun r => r.city == row5.city) = [row5, row5b] := rfl
  simp only [computeUniDetails]
  rw [hflt]
  simp only [hg, Option.map_some']
  simp only [row5, row5b, List.map_cons, List.map_nil, List.sum_cons, List.sum_nil,
    List.length_cons, List.length_nil]
  norm_num [round2, ratFloor_eq]

/-- Witness for the amended C5: rejecting the stored review of `Alpha U`
removes its cache entry, leaves other entries alone, and the next aggregate
read recomputes from the updated store. -/
theorem c5_witness :
    update_review_status app5 1 "rejected" true =
      ({ db := ⟨app5.db.rows.map (fun x => if x.id == 1 then { x with status := "rejected" } else x),
                app5.db.nextId⟩,
         cache := app5.cache.filter (fun p => p.1 != row5.uni_name) }, .ok) ∧
    lookupCache (app5.cache.filter (fun p => p.1 != row5.uni_name)) row5.uni_name = none ∧
    (∀ u, u ≠ row5.uni_name →
      lookupCache (app5.cache.filter (fun p => p.1 != row5.uni_name)) u
        = lookupCache app5.cache u) ∧
    (get_university_details
        ⟨⟨app5.db.rows.map (fun x => if x.id == 1 then { x with status := "rejected" } else x),
          app5.db.nextId⟩,
         app5.cache.filter (fun p => p.1 != row5.uni_name)⟩ row5.uni_name).2
      = computeUniDetails
          ⟨app5.db.rows.map (fun x => if x.id == 1 then { x with status := "rejected" } else x),
           app5.db.nextId⟩ row5.uni_name :=
  c5_amended app5 1 "rejected" row5 (Or.inr rfl) (by simp [app5]) rfl (by simp [app5])
